import Mathlib

/-!
Shallow embedding of `src/server/campsites_api/utils/process_campsites_data.py`.

The module has four decoders:
  process_campsites_phone_number, process_campsites_dates,
  process_campsites_country, process_campsites_amenities.
Python strings are embedded as Lean `String`; `None` as `Option.none`;
a raised exception (the `int()` call in the amenity decoder can raise
`ValueError`) as `Option.none` in the result of the amenity decoder.
Python `int()` is modelled for ASCII inputs (optional surrounding
whitespace, optional sign, digits with single underscores in between).
-/

namespace Campsites

/-- Whether the first list occurs contiguously somewhere in the second. -/
def infixChars (a : List Char) : List Char → Bool
  | [] => a.isEmpty
  | c :: rest => a.isPrefixOf (c :: rest) || infixChars a rest

/-- Substring containment, the semantics of Python's `a in b` on strings. -/
def strIn (a b : String) : Bool := infixChars a.data b.data

/-- Membership of the character class `[A-Za-z0-9]` used by the regex
`[^A-Za-z0-9]+` in the phone-number decoder. -/
def isAsciiAlnum (c : Char) : Bool := c.isAlpha || c.isDigit

/-- Embeds `process_campsites_phone_number`: `None` maps to `None`;
otherwise every character outside `[A-Za-z0-9]` is removed
(`re.sub("[^A-Za-z0-9]+", "", s)` deletes exactly those characters). -/
def process_campsites_phone_number : Option String → Option String
  | none => none
  | some s => some ⟨s.data.filter isAsciiAlnum⟩

/-- Python `s.replace("-", " ")`: the pattern is a single character, so the
call is a per-character map. -/
def replaceDashes (s : String) : String :=
  ⟨s.data.map (fun c => if c = '-' then ' ' else c)⟩

/-- Split of a character list at every occurrence of a separator character,
keeping empty segments, as Python `str.split(sep)` does for a one-character
separator; the result is always nonempty. -/
def splitOnChar (sep : Char) : List Char → List (List Char)
  | [] => [[]]
  | c :: rest =>
    if c = sep then [] :: splitOnChar sep rest
    else
      match splitOnChar sep rest with
      | [] => [[c]]
      | h :: t => (c :: h) :: t

/-- Python `s.split(" ")`. -/
def pySplit (sep : Char) (s : String) : List String :=
  (splitOnChar sep s.data).map (fun l => ⟨l⟩)

/-- Python `s.strip()`: leading and trailing whitespace removed. -/
def pyStrip (s : String) : String :=
  ⟨((s.data.dropWhile Char.isWhitespace).reverse.dropWhile Char.isWhitespace).reverse⟩

/-- Output shape of `process_campsites_dates`. -/
structure DatesDict where
  month_open : Option Nat
  month_close : Option Nat
deriving DecidableEq, Repr

/-- The `dates_map` table of the source, in its insertion order. -/
def datesMap : List (String × Nat) :=
  [("jan", 1), ("feb", 2), ("mar", 3), ("apr", 4), ("may", 5), ("jun", 6),
   ("jul", 7), ("aug", 8), ("sep", 9), ("oct", 10), ("nov", 11), ("dec", 12)]

/-- Exact lookup in `dates_map` (Python `open_str in dates_map.keys()`,
then `dates_map[open_str]`). -/
def monthVal (t : String) : Option Nat :=
  (datesMap.find? (fun p => p.1 == t)).map Prod.snd

/-- Whether a token is exactly a month key. -/
def isMonthKey (t : String) : Bool := (monthVal t).isSome

/-- The open-month scan: `open_str = arr.pop(0)` followed by
`while open_str not in dates_map.keys() and len(arr) > 0: open_str = arr.pop(0)`,
then the exact-match assignment loop. Returns the value assigned to
`month_open` (if any) and the remaining array. -/
def openScan : String → List String → Option Nat × List String
  | t, rest =>
    if isMonthKey t then (monthVal t, rest)
    else
      match rest with
      | [] => (none, [])
      | h :: tl => openScan h tl

/-- The close-month assignment loop of the source:
`for month in dates_map.keys(): if month in close_str: dates_dict["month_close"] = dates_map[month]`,
a fold over the table in order with substring containment. -/
def assignClose (t : String) : Option Nat :=
  datesMap.foldl (fun acc p => if strIn p.1 t then some p.2 else acc) none

/-- The close-month scan: `close_str = arr.pop(0)` followed by
`while close_str not in dates_map.keys() and len(arr) > 0: close_str = arr.pop(0)`,
then the substring assignment loop on the token where the scan stopped. -/
def closeScan : String → List String → Option Nat
  | t, rest =>
    if isMonthKey t then assignClose t
    else
      match rest with
      | [] => assignClose t
      | h :: tl => closeScan h tl

/-- Embeds `process_campsites_dates`. The empty-list branch of the match is
unreachable: Python's `split(" ")` (like `String.splitOn`) always returns at
least one element. -/
def process_campsites_dates (date_open_str : Option String) : DatesDict :=
  match date_open_str with
  | none => ⟨none, none⟩
  | some s =>
    if s = "all year" then ⟨some 1, some 12⟩
    else
      match pySplit ' ' (replaceDashes s) with
      | [] => ⟨none, none⟩
      | h :: tl =>
        match openScan h tl with
        | (mo, []) => ⟨mo, none⟩
        | (mo, h2 :: tl2) => ⟨mo, closeScan h2 tl2⟩

/-- The `canadian_provinces` table of the source. -/
def canadian_provinces : List String :=
  ["AB", "BC", "MB", "NB", "NL", "NT", "NS", "NU", "ON", "PE", "QC", "SK", "YT"]

/-- Embeds `process_campsites_country`. -/
def process_campsites_country (state_str : String) : String :=
  if state_str ∈ canadian_provinces then "CAN" else "USA"

/-- Output shape of `process_campsites_amenities`. The Python dict starts
without a `has_rv_hookup` key; that key only appears when a hookup token is
seen, which the optional field (initially `none`) models. -/
structure AmenityDict where
  has_water_hookup : Option Bool := none
  has_electric_hookup : Option Bool := none
  has_sewer_hookup : Option Bool := none
  has_sanitary_dump : Option Bool := none
  max_rv_length : Option Int := none
  has_toilets : Option Bool := none
  toilet_type : Option String := none
  has_drinking_water : Option Bool := none
  has_showers : Option Bool := none
  accepts_reservations : Option Bool := none
  accepts_pets : Option Bool := none
  low_no_fee : Option Bool := none
  has_rv_hookup : Option Bool := none
deriving DecidableEq, Repr

/-- Nonnegative-integer literal body of Python `int()`: a nonempty digit
string, single underscores allowed between digits. -/
def pyDigits : Nat → List Char → Option Nat
  | acc, [] => some acc
  | acc, '_' :: c :: rest =>
    if c.isDigit then pyDigits (acc * 10 + (c.toNat - 48)) rest else none
  | _, ['_'] => none
  | acc, c :: rest =>
    if c.isDigit then pyDigits (acc * 10 + (c.toNat - 48)) rest else none

/-- Unsigned part of Python `int()`: first character must be a digit. -/
def pyIntCore : List Char → Option Nat
  | [] => none
  | c :: rest => if c.isDigit then pyDigits (c.toNat - 48) rest else none

/-- Models Python `int(s)` for base 10 over ASCII input: surrounding
whitespace stripped, then an optional sign and a digit string; returns
`none` where Python raises `ValueError`. -/
def pyInt (s : String) : Option Int :=
  let cs := (s.data.dropWhile Char.isWhitespace).reverse.dropWhile Char.isWhitespace |>.reverse
  match cs with
  | '+' :: rest => (pyIntCore rest).map Int.ofNat
  | '-' :: rest => (pyIntCore rest).map (fun n => -(n : Int))
  | _ => (pyIntCore cs).map Int.ofNat

/-- Characters before the first occurrence of "ft" (the whole list when
there is none). -/
def beforeFtChars : List Char → List Char
  | [] => []
  | c :: rest =>
    if ['f', 't'].isPrefixOf (c :: rest) then [] else c :: beforeFtChars rest

/-- Prefix before the first occurrence of "ft", i.e. Python
`amenity_code.split("ft")[0]`. -/
def beforeFt (c : String) : String := ⟨beforeFtChars c.data⟩

/-- Hookup rule of the amenity decoder. -/
def hookupRule (d : AmenityDict) (c : String) : AmenityDict :=
  if c ∈ ["NH", "E", "WE", "WES"] then
    { d with
      has_electric_hookup := some (strIn "E" c)
      has_water_hookup := some (strIn "W" c)
      has_sewer_hookup := some (strIn "S" c)
      has_rv_hookup := some (c != "NH") }
  else d

/-- Sanitary-dump rule of the amenity decoder. -/
def dumpRule (d : AmenityDict) (c : String) : AmenityDict :=
  if c ∈ ["DP", "NP"] then { d with has_sanitary_dump := some (c == "DP") } else d

/-- Max-RV-length rule: on a token containing "ft" the numeric prefix is fed
to `int()`, which raises (modelled as `none`) on a malformed prefix. -/
def ftRule (d : AmenityDict) (c : String) : Option AmenityDict :=
  if strIn "ft" c then
    (pyInt (beforeFt c)).map (fun n => { d with max_rv_length := some n })
  else some d

/-- The `toilet_map` table of the source. -/
def toiletMap (c : String) : String :=
  if c == "FT" then "flush"
  else if c == "VT" then "vault"
  else if c == "FTVT" then "mixed"
  else "pit"

/-- Toilet rule of the amenity decoder. -/
def toiletRule (d : AmenityDict) (c : String) : AmenityDict :=
  if c ∈ ["FT", "VT", "FTVT", "PT", "NT"] then
    if c == "NT" then { d with has_toilets := some false }
    else { d with has_toilets := some true, toilet_type := some (toiletMap c) }
  else d

/-- Drinking-water rule of the amenity decoder. -/
def dwRule (d : AmenityDict) (c : String) : AmenityDict :=
  if c ∈ ["DW", "NW"] then { d with has_drinking_water := some (c == "DW") } else d

/-- Shower rule of the amenity decoder. -/
def showerRule (d : AmenityDict) (c : String) : AmenityDict :=
  if c ∈ ["SH", "NS"] then { d with has_showers := some (c == "SH") } else d

/-- Reservation rule of the amenity decoder. -/
def rsRule (d : AmenityDict) (c : String) : AmenityDict :=
  if c ∈ ["RS", "NR"] then { d with accepts_reservations := some (c == "RS") } else d

/-- Pets rule of the amenity decoder; note "NP" is also a dump token. -/
def petRule (d : AmenityDict) (c : String) : AmenityDict :=
  if c ∈ ["PA", "NP"] then { d with accepts_pets := some (c == "PA") } else d

/-- Low-fee rule of the amenity decoder. -/
def feeRule (d : AmenityDict) (c : String) : AmenityDict :=
  if c == "L$" then { d with low_no_fee := some true } else d

/-- The rules of the token loop that follow the max-RV-length rule, in
source order. -/
def lateRules (d : AmenityDict) (c : String) : AmenityDict :=
  feeRule (petRule (rsRule (showerRule (dwRule (toiletRule d c) c) c) c) c) c

/-- One iteration of the token loop of `process_campsites_amenities`, rules
applied in source order; `none` models the `ValueError` escaping the loop. -/
def processAmenityToken (d : AmenityDict) (c : String) : Option AmenityDict :=
  match ftRule (dumpRule (hookupRule d c) c) c with
  | none => none
  | some d3 => some (lateRules d3 c)

/-- The token loop of `process_campsites_amenities`. -/
def foldAmenities (d : AmenityDict) : List String → Option AmenityDict
  | [] => some d
  | c :: cs =>
    match processAmenityToken d c with
    | none => none
    | some d2 => foldAmenities d2 cs

/-- Embeds `process_campsites_amenities`; the outer `Option` models the
possible `ValueError` from the RV-length rule. -/
def process_campsites_amenities (amenity_str : Option String) : Option AmenityDict :=
  match amenity_str with
  | none => some {}
  | some s => foldAmenities {} (pySplit ' ' (pyStrip s))

/-- A token is harmless for the max-RV-length rule: either it does not
contain "ft", or the prefix before "ft" is a valid integer literal. -/
def goodToken (t : String) : Bool :=
  !(strIn "ft" t) || (pyInt (beforeFt t)).isSome

lemma filter_idem (p : Char → Bool) : ∀ l : List Char,
    (l.filter p).filter p = l.filter p := by
  intro l
  induction l with
  | nil => rfl
  | cons c cs ih => cases h : p c <;> simp [List.filter_cons, h, ih]

lemma step_isSome (d : AmenityDict) (c : String) :
    (processAmenityToken d c).isSome = goodToken c := by
  unfold processAmenityToken goodToken
  by_cases h : strIn "ft" c
  · simp only [ftRule, h, if_true]
    cases hp : pyInt (beforeFt c) <;> simp [hp]
  · simp [ftRule, h]

lemma fold_isSome : ∀ (l : List String) (d : AmenityDict),
    (foldAmenities d l).isSome = l.all goodToken := by
  intro l
  induction l with
  | nil => intro d; rfl
  | cons c cs ih =>
    intro d
    have hs := step_isSome d c
    simp only [foldAmenities, List.all_cons]
    cases h : processAmenityToken d c with
    | none =>
      rw [h] at hs
      simp [← hs]
    | some d2 =>
      rw [h] at hs
      simp [← hs, ih d2]

lemma openScan_find_none : ∀ (tl : List String) (t : String),
    (t :: tl).find? isMonthKey = none → openScan t tl = (none, []) := by
  intro tl
  induction tl with
  | nil =>
    intro t h
    cases hk : isMonthKey t
    · simp [openScan, hk]
    · rw [List.find?_cons_of_pos _ hk] at h
      cases h
  | cons h2 tl2 ih =>
    intro t h
    cases hk : isMonthKey t
    · rw [List.find?_cons_of_neg _ (by simp [hk])] at h
      rw [show openScan t (h2 :: tl2) = openScan h2 tl2 from by simp [openScan, hk]]
      exact ih h2 h
    · rw [List.find?_cons_of_pos _ hk] at h
      cases h

lemma openScan_find_some : ∀ (tl : List String) (t u : String),
    (t :: tl).find? isMonthKey = some u → (openScan t tl).1 = monthVal u := by
  intro tl
  induction tl with
  | nil =>
    intro t u h
    cases hk : isMonthKey t
    · rw [List.find?_cons_of_neg _ (by simp [hk])] at h
      simp at h
    · rw [List.find?_cons_of_pos _ hk] at h
      injection h with h2
      subst h2
      simp [openScan, hk]
  | cons h2 tl2 ih =>
    intro t u h
    cases hk : isMonthKey t
    · rw [List.find?_cons_of_neg _ (by simp [hk])] at h
      rw [show openScan t (h2 :: tl2) = openScan h2 tl2 from by simp [openScan, hk]]
      exact ih h2 u h
    · rw [List.find?_cons_of_pos _ hk] at h
      injection h with h2
      subst h2
      simp [openScan, hk]

lemma assignFold_no_match (t : String) : ∀ (l : List (String × Nat)) (acc : Option Nat),
    (∀ p ∈ l, strIn p.1 t = false) →
    l.foldl (fun acc p => if strIn p.1 t then some p.2 else acc) acc = acc := by
  intro l
  induction l with
  | nil => intro acc _; rfl
  | cons p ps ih =>
    intro acc h
    rw [List.foldl_cons, if_neg (by simp [h p (List.mem_cons_self p ps)])]
    exact ih acc (fun q hq => h q (List.mem_cons_of_mem p hq))

lemma assignFold_max (t : String) : ∀ (l : List (String × Nat)) (acc : Option Nat),
    (∃ p ∈ l, strIn p.1 t = true) →
    l.Pairwise (fun p q => p.2 ≤ q.2) →
    ∃ k, l.foldl (fun acc p => if strIn p.1 t then some p.2 else acc) acc = some k ∧
      (∀ p ∈ l, strIn p.1 t = true → p.2 ≤ k) ∧
      (∃ p ∈ l, strIn p.1 t = true ∧ p.2 = k) := by
  intro l
  induction l with
  | nil => intro acc h _; simp at h
  | cons p ps ih =>
    intro acc hex hpw
    rw [List.foldl_cons]
    rw [List.pairwise_cons] at hpw
    by_cases hm : ∃ q ∈ ps, strIn q.1 t = true
    · obtain ⟨k, hk, hmax, q0, hq0, hq0s, hq0v⟩ := ih _ hm hpw.2
      refine ⟨k, hk, ?_, q0, List.mem_cons_of_mem _ hq0, hq0s, hq0v⟩
      intro q hq hqs
      rcases List.mem_cons.mp hq with rfl | hq'
      · exact le_of_le_of_eq (hpw.1 q0 hq0) hq0v
      · exact hmax q hq' hqs
    · have hp : strIn p.1 t = true := by
        rcases hex with ⟨q, hq, hqs⟩
        rcases List.mem_cons.mp hq with rfl | hq'
        · exact hqs
        · exact absurd ⟨q, hq', hqs⟩ hm
      have hall : ∀ q ∈ ps, strIn q.1 t = false := by
        intro q hq
        by_cases hb : strIn q.1 t = true
        · exact absurd ⟨q, hq, hb⟩ hm
        · simpa using hb
      rw [if_pos hp, assignFold_no_match t ps _ hall]
      refine ⟨p.2, rfl, ?_, p, List.mem_cons_self p ps, hp, rfl⟩
      intro q hq hqs
      rcases List.mem_cons.mp hq with rfl | hq'
      · exact le_refl _
      · exact absurd ⟨q, hq', hqs⟩ hm

@[simp] lemma hookupRule_water (d : AmenityDict) (c : String) :
    (hookupRule d c).has_water_hookup = if c ∈ ["NH", "E", "WE", "WES"] then some (strIn "W" c) else d.has_water_hookup := by
  unfold hookupRule
  split <;> rfl

@[simp] lemma hookupRule_electric (d : AmenityDict) (c : String) :
    (hookupRule d c).has_electric_hookup = if c ∈ ["NH", "E", "WE", "WES"] then some (strIn "E" c) else d.has_electric_hookup := by
  unfold hookupRule
  split <;> rfl

@[simp] lemma hookupRule_sewer (d : AmenityDict) (c : String) :
    (hookupRule d c).has_sewer_hookup = if c ∈ ["NH", "E", "WE", "WES"] then some (strIn "S" c) else d.has_sewer_hookup := by
  unfold hookupRule
  split <;> rfl

@[simp] lemma hookupRule_dump (d : AmenityDict) (c : String) :
    (hookupRule d c).has_sanitary_dump = d.has_sanitary_dump := by
  unfold hookupRule
  split <;> rfl

@[simp] lemma hookupRule_maxlen (d : AmenityDict) (c : String) :
    (hookupRule d c).max_rv_length = d.max_rv_length := by
  unfold hookupRule
  split <;> rfl

@[simp] lemma hookupRule_toilets (d : AmenityDict) (c : String) :
    (hookupRule d c).has_toilets = d.has_toilets := by
  unfold hookupRule
  split <;> rfl

@[simp] lemma hookupRule_ttype (d : AmenityDict) (c : String) :
    (hookupRule d c).toilet_type = d.toilet_type := by
  unfold hookupRule
  split <;> rfl

@[simp] lemma hookupRule_dw (d : AmenityDict) (c : String) :
    (hookupRule d c).has_drinking_water = d.has_drinking_water := by
  unfold hookupRule
  split <;> rfl

@[simp] lemma hookupRule_showers (d : AmenityDict) (c : String) :
    (hookupRule d c).has_showers = d.has_showers := by
  unfold hookupRule
  split <;> rfl

@[simp] lemma hookupRule_resv (d : AmenityDict) (c : String) :
    (hookupRule d c).accepts_reservations = d.accepts_reservations := by
  unfold hookupRule
  split <;> rfl

@[simp] lemma hookupRule_pets (d : AmenityDict) (c : String) :
    (hookupRule d c).accepts_pets = d.accepts_pets := by
  unfold hookupRule
  split <;> rfl

@[simp] lemma hookupRule_fee (d : AmenityDict) (c : String) :
    (hookupRule d c).low_no_fee = d.low_no_fee := by
  unfold hookupRule
  split <;> rfl

@[simp] lemma hookupRule_rv (d : AmenityDict) (c : String) :
    (hookupRule d c).has_rv_hookup = if c ∈ ["NH", "E", "WE", "WES"] then some (c != "NH") else d.has_rv_hookup := by
  unfold hookupRule
  split <;> rfl

@[simp] lemma dumpRule_water (d : AmenityDict) (c : String) :
    (dumpRule d c).has_water_hookup = d.has_water_hookup := by
  unfold dumpRule
  split <;> rfl

@[simp] lemma dumpRule_electric (d : AmenityDict) (c : String) :
    (dumpRule d c).has_electric_hookup = d.has_electric_hookup := by
  unfold dumpRule
  split <;> rfl

@[simp] lemma dumpRule_sewer (d : AmenityDict) (c : String) :
    (dumpRule d c).has_sewer_hookup = d.has_sewer_hookup := by
  unfold dumpRule
  split <;> rfl

@[simp] lemma dumpRule_dump (d : AmenityDict) (c : String) :
    (dumpRule d c).has_sanitary_dump = if c ∈ ["DP", "NP"] then some (c == "DP") else d.has_sanitary_dump := by
  unfold dumpRule
  split <;> rfl

@[simp] lemma dumpRule_maxlen (d : AmenityDict) (c : String) :
    (dumpRule d c).max_rv_length = d.max_rv_length := by
  unfold dumpRule
  split <;> rfl

@[simp] lemma dumpRule_toilets (d : AmenityDict) (c : String) :
    (dumpRule d c).has_toilets = d.has_toilets := by
  unfold dumpRule
  split <;> rfl

@[simp] lemma dumpRule_ttype (d : AmenityDict) (c : String) :
    (dumpRule d c).toilet_type = d.toilet_type := by
  unfold dumpRule
  split <;> rfl

@[simp] lemma dumpRule_dw (d : AmenityDict) (c : String) :
    (dumpRule d c).has_drinking_water = d.has_drinking_water := by
  unfold dumpRule
  split <;> rfl

@[simp] lemma dumpRule_showers (d : AmenityDict) (c : String) :
    (dumpRule d c).has_showers = d.has_showers := by
  unfold dumpRule
  split <;> rfl

@[simp] lemma dumpRule_resv (d : AmenityDict) (c : String) :
    (dumpRule d c).accepts_reservations = d.accepts_reservations := by
  unfold dumpRule
  split <;> rfl

@[simp] lemma dumpRule_pets (d : AmenityDict) (c : String) :
    (dumpRule d c).accepts_pets = d.accepts_pets := by
  unfold dumpRule
  split <;> rfl

@[simp] lemma dumpRule_fee (d : AmenityDict) (c : String) :
    (dumpRule d c).low_no_fee = d.low_no_fee := by
  unfold dumpRule
  split <;> rfl

@[simp] lemma dumpRule_rv (d : AmenityDict) (c : String) :
    (dumpRule d c).has_rv_hookup = d.has_rv_hookup := by
  unfold dumpRule
  split <;> rfl

@[simp] lemma dwRule_water (d : AmenityDict) (c : String) :
    (dwRule d c).has_water_hookup = d.has_water_hookup := by
  unfold dwRule
  split <;> rfl

@[simp] lemma dwRule_electric (d : AmenityDict) (c : String) :
    (dwRule d c).has_electric_hookup = d.has_electric_hookup := by
  unfold dwRule
  split <;> rfl

@[simp] lemma dwRule_sewer (d : AmenityDict) (c : String) :
    (dwRule d c).has_sewer_hookup = d.has_sewer_hookup := by
  unfold dwRule
  split <;> rfl

@[simp] lemma dwRule_dump (d : AmenityDict) (c : String) :
    (dwRule d c).has_sanitary_dump = d.has_sanitary_dump := by
  unfold dwRule
  split <;> rfl

@[simp] lemma dwRule_maxlen (d : AmenityDict) (c : String) :
    (dwRule d c).max_rv_length = d.max_rv_length := by
  unfold dwRule
  split <;> rfl

@[simp] lemma dwRule_toilets (d : AmenityDict) (c : String) :
    (dwRule d c).has_toilets = d.has_toilets := by
  unfold dwRule
  split <;> rfl

@[simp] lemma dwRule_ttype (d : AmenityDict) (c : String) :
    (dwRule d c).toilet_type = d.toilet_type := by
  unfold dwRule
  split <;> rfl

@[simp] lemma dwRule_dw (d : AmenityDict) (c : String) :
    (dwRule d c).has_drinking_water = if c ∈ ["DW", "NW"] then some (c == "DW") else d.has_drinking_water := by
  unfold dwRule
  split <;> rfl

@[simp] lemma dwRule_showers (d : AmenityDict) (c : String) :
    (dwRule d c).has_showers = d.has_showers := by
  unfold dwRule
  split <;> rfl

@[simp] lemma dwRule_resv (d : AmenityDict) (c : String) :
    (dwRule d c).accepts_reservations = d.accepts_reservations := by
  unfold dwRule
  split <;> rfl

@[simp] lemma dwRule_pets (d : AmenityDict) (c : String) :
    (dwRule d c).accepts_pets = d.accepts_pets := by
  unfold dwRule
  split <;> rfl

@[simp] lemma dwRule_fee (d : AmenityDict) (c : String) :
    (dwRule d c).low_no_fee = d.low_no_fee := by
  unfold dwRule
  split <;> rfl

@[simp] lemma dwRule_rv (d : AmenityDict) (c : String) :
    (dwRule d c).has_rv_hookup = d.has_rv_hookup := by
  unfold dwRule
  split <;> rfl

@[simp] lemma showerRule_water (d : AmenityDict) (c : String) :
    (showerRule d c).has_water_hookup = d.has_water_hookup := by
  unfold showerRule
  split <;> rfl

@[simp] lemma showerRule_electric (d : AmenityDict) (c : String) :
    (showerRule d c).has_electric_hookup = d.has_electric_hookup := by
  unfold showerRule
  split <;> rfl

@[simp] lemma showerRule_sewer (d : AmenityDict) (c : String) :
    (showerRule d c).has_sewer_hookup = d.has_sewer_hookup := by
  unfold showerRule
  split <;> rfl

@[simp] lemma showerRule_dump (d : AmenityDict) (c : String) :
    (showerRule d c).has_sanitary_dump = d.has_sanitary_dump := by
  unfold showerRule
  split <;> rfl

@[simp] lemma showerRule_maxlen (d : AmenityDict) (c : String) :
    (showerRule d c).max_rv_length = d.max_rv_length := by
  unfold showerRule
  split <;> rfl

@[simp] lemma showerRule_toilets (d : AmenityDict) (c : String) :
    (showerRule d c).has_toilets = d.has_toilets := by
  unfold showerRule
  split <;> rfl

@[simp] lemma showerRule_ttype (d : AmenityDict) (c : String) :
    (showerRule d c).toilet_type = d.toilet_type := by
  unfold showerRule
  split <;> rfl

@[simp] lemma showerRule_dw (d : AmenityDict) (c : String) :
    (showerRule d c).has_drinking_water = d.has_drinking_water := by
  unfold showerRule
  split <;> rfl

@[simp] lemma showerRule_showers (d : AmenityDict) (c : String) :
    (showerRule d c).has_showers = if c ∈ ["SH", "NS"] then some (c == "SH") else d.has_showers := by
  unfold showerRule
  split <;> rfl

@[simp] lemma showerRule_resv (d : AmenityDict) (c : String) :
    (showerRule d c).accepts_reservations = d.accepts_reservations := by
  unfold showerRule
  split <;> rfl

@[simp] lemma showerRule_pets (d : AmenityDict) (c : String) :
    (showerRule d c).accepts_pets = d.accepts_pets := by
  unfold showerRule
  split <;> rfl

@[simp] lemma showerRule_fee (d : AmenityDict) (c : String) :
    (showerRule d c).low_no_fee = d.low_no_fee := by
  unfold showerRule
  split <;> rfl

@[simp] lemma showerRule_rv (d : AmenityDict) (c : String) :
    (showerRule d c).has_rv_hookup = d.has_rv_hookup := by
  unfold showerRule
  split <;> rfl

@[simp] lemma rsRule_water (d : AmenityDict) (c : String) :
    (rsRule d c).has_water_hookup = d.has_water_hookup := by
  unfold rsRule
  split <;> rfl

@[simp] lemma rsRule_electric (d : AmenityDict) (c : String) :
    (rsRule d c).has_electric_hookup = d.has_electric_hookup := by
  unfold rsRule
  split <;> rfl

@[simp] lemma rsRule_sewer (d : AmenityDict) (c : String) :
    (rsRule d c).has_sewer_hookup = d.has_sewer_hookup := by
  unfold rsRule
  split <;> rfl

@[simp] lemma rsRule_dump (d : AmenityDict) (c : String) :
    (rsRule d c).has_sanitary_dump = d.has_sanitary_dump := by
  unfold rsRule
  split <;> rfl

@[simp] lemma rsRule_maxlen (d : AmenityDict) (c : String) :
    (rsRule d c).max_rv_length = d.max_rv_length := by
  unfold rsRule
  split <;> rfl

@[simp] lemma rsRule_toilets (d : AmenityDict) (c : String) :
    (rsRule d c).has_toilets = d.has_toilets := by
  unfold rsRule
  split <;> rfl

@[simp] lemma rsRule_ttype (d : AmenityDict) (c : String) :
    (rsRule d c).toilet_type = d.toilet_type := by
  unfold rsRule
  split <;> rfl

@[simp] lemma rsRule_dw (d : AmenityDict) (c : String) :
    (rsRule d c).has_drinking_water = d.has_drinking_water := by
  unfold rsRule
  split <;> rfl

@[simp] lemma rsRule_showers (d : AmenityDict) (c : String) :
    (rsRule d c).has_showers = d.has_showers := by
  unfold rsRule
  split <;> rfl

@[simp] lemma rsRule_resv (d : AmenityDict) (c : String) :
    (rsRule d c).accepts_reservations = if c ∈ ["RS", "NR"] then some (c == "RS") else d.accepts_reservations := by
  unfold rsRule
  split <;> rfl

@[simp] lemma rsRule_pets (d : AmenityDict) (c : String) :
    (rsRule d c).accepts_pets = d.accepts_pets := by
  unfold rsRule
  split <;> rfl

@[simp] lemma rsRule_fee (d : AmenityDict) (c : String) :
    (rsRule d c).low_no_fee = d.low_no_fee := by
  unfold rsRule
  split <;> rfl

@[simp] lemma rsRule_rv (d : AmenityDict) (c : String) :
    (rsRule d c).has_rv_hookup = d.has_rv_hookup := by
  unfold rsRule
  split <;> rfl

@[simp] lemma petRule_water (d : AmenityDict) (c : String) :
    (petRule d c).has_water_hookup = d.has_water_hookup := by
  unfold petRule
  split <;> rfl

@[simp] lemma petRule_electric (d : AmenityDict) (c : String) :
    (petRule d c).has_electric_hookup = d.has_electric_hookup := by
  unfold petRule
  split <;> rfl

@[simp] lemma petRule_sewer (d : AmenityDict) (c : String) :
    (petRule d c).has_sewer_hookup = d.has_sewer_hookup := by
  unfold petRule
  split <;> rfl

@[simp] lemma petRule_dump (d : AmenityDict) (c : String) :
    (petRule d c).has_sanitary_dump = d.has_sanitary_dump := by
  unfold petRule
  split <;> rfl

@[simp] lemma petRule_maxlen (d : AmenityDict) (c : String) :
    (petRule d c).max_rv_length = d.max_rv_length := by
  unfold petRule
  split <;> rfl

@[simp] lemma petRule_toilets (d : AmenityDict) (c : String) :
    (petRule d c).has_toilets = d.has_toilets := by
  unfold petRule
  split <;> rfl

@[simp] lemma petRule_ttype (d : AmenityDict) (c : String) :
    (petRule d c).toilet_type = d.toilet_type := by
  unfold petRule
  split <;> rfl

@[simp] lemma petRule_dw (d : AmenityDict) (c : String) :
    (petRule d c).has_drinking_water = d.has_drinking_water := by
  unfold petRule
  split <;> rfl

@[simp] lemma petRule_showers (d : AmenityDict) (c : String) :
    (petRule d c).has_showers = d.has_showers := by
  unfold petRule
  split <;> rfl

@[simp] lemma petRule_resv (d : AmenityDict) (c : String) :
    (petRule d c).accepts_reservations = d.accepts_reservations := by
  unfold petRule
  split <;> rfl

@[simp] lemma petRule_pets (d : AmenityDict) (c : String) :
    (petRule d c).accepts_pets = if c ∈ ["PA", "NP"] then some (c == "PA") else d.accepts_pets := by
  unfold petRule
  split <;> rfl

@[simp] lemma petRule_fee (d : AmenityDict) (c : String) :
    (petRule d c).low_no_fee = d.low_no_fee := by
  unfold petRule
  split <;> rfl

@[simp] lemma petRule_rv (d : AmenityDict) (c : String) :
    (petRule d c).has_rv_hookup = d.has_rv_hookup := by
  unfold petRule
  split <;> rfl

@[simp] lemma feeRule_water (d : AmenityDict) (c : String) :
    (feeRule d c).has_water_hookup = d.has_water_hookup := by
  unfold feeRule
  split <;> rfl

@[simp] lemma feeRule_electric (d : AmenityDict) (c : String) :
    (feeRule d c).has_electric_hookup = d.has_electric_hookup := by
  unfold feeRule
  split <;> rfl

@[simp] lemma feeRule_sewer (d : AmenityDict) (c : String) :
    (feeRule d c).has_sewer_hookup = d.has_sewer_hookup := by
  unfold feeRule
  split <;> rfl

@[simp] lemma feeRule_dump (d : AmenityDict) (c : String) :
    (feeRule d c).has_sanitary_dump = d.has_sanitary_dump := by
  unfold feeRule
  split <;> rfl

@[simp] lemma feeRule_maxlen (d : AmenityDict) (c : String) :
    (feeRule d c).max_rv_length = d.max_rv_length := by
  unfold feeRule
  split <;> rfl

@[simp] lemma feeRule_toilets (d : AmenityDict) (c : String) :
    (feeRule d c).has_toilets = d.has_toilets := by
  unfold feeRule
  split <;> rfl

@[simp] lemma feeRule_ttype (d : AmenityDict) (c : String) :
    (feeRule d c).toilet_type = d.toilet_type := by
  unfold feeRule
  split <;> rfl

@[simp] lemma feeRule_dw (d : AmenityDict) (c : String) :
    (feeRule d c).has_drinking_water = d.has_drinking_water := by
  unfold feeRule
  split <;> rfl

@[simp] lemma feeRule_showers (d : AmenityDict) (c : String) :
    (feeRule d c).has_showers = d.has_showers := by
  unfold feeRule
  split <;> rfl

@[simp] lemma feeRule_resv (d : AmenityDict) (c : String) :
    (feeRule d c).accepts_reservations = d.accepts_reservations := by
  unfold feeRule
  split <;> rfl

@[simp] lemma feeRule_pets (d : AmenityDict) (c : String) :
    (feeRule d c).accepts_pets = d.accepts_pets := by
  unfold feeRule
  split <;> rfl

@[simp] lemma feeRule_fee (d : AmenityDict) (c : String) :
    (feeRule d c).low_no_fee = if c == "L$" then some true else d.low_no_fee := by
  unfold feeRule
  split <;> rfl

@[simp] lemma feeRule_rv (d : AmenityDict) (c : String) :
    (feeRule d c).has_rv_hookup = d.has_rv_hookup := by
  unfold feeRule
  split <;> rfl

@[simp] lemma toiletRule_water (d : AmenityDict) (c : String) :
    (toiletRule d c).has_water_hookup = d.has_water_hookup := by
  unfold toiletRule
  split
  · split <;> rfl
  · rfl

@[simp] lemma toiletRule_electric (d : AmenityDict) (c : String) :
    (toiletRule d c).has_electric_hookup = d.has_electric_hookup := by
  unfold toiletRule
  split
  · split <;> rfl
  · rfl

@[simp] lemma toiletRule_sewer (d : AmenityDict) (c : String) :
    (toiletRule d c).has_sewer_hookup = d.has_sewer_hookup := by
  unfold toiletRule
  split
  · split <;> rfl
  · rfl

@[simp] lemma toiletRule_dump (d : AmenityDict) (c : String) :
    (toiletRule d c).has_sanitary_dump = d.has_sanitary_dump := by
  unfold toiletRule
  split
  · split <;> rfl
  · rfl

@[simp] lemma toiletRule_maxlen (d : AmenityDict) (c : String) :
    (toiletRule d c).max_rv_length = d.max_rv_length := by
  unfold toiletRule
  split
  · split <;> rfl
  · rfl

@[simp] lemma toiletRule_toilets (d : AmenityDict) (c : String) :
    (toiletRule d c).has_toilets = if c ∈ ["FT", "VT", "FTVT", "PT", "NT"] then (if c == "NT" then some false else some true) else d.has_toilets := by
  unfold toiletRule
  split
  · split <;> rfl
  · rfl

@[simp] lemma toiletRule_ttype (d : AmenityDict) (c : String) :
    (toiletRule d c).toilet_type = if c ∈ ["FT", "VT", "FTVT", "PT", "NT"] then (if c == "NT" then d.toilet_type else some (toiletMap c)) else d.toilet_type := by
  unfold toiletRule
  split
  · split <;> rfl
  · rfl

@[simp] lemma toiletRule_dw (d : AmenityDict) (c : String) :
    (toiletRule d c).has_drinking_water = d.has_drinking_water := by
  unfold toiletRule
  split
  · split <;> rfl
  · rfl

@[simp] lemma toiletRule_showers (d : AmenityDict) (c : String) :
    (toiletRule d c).has_showers = d.has_showers := by
  unfold toiletRule
  split
  · split <;> rfl
  · rfl

@[simp] lemma toiletRule_resv (d : AmenityDict) (c : String) :
    (toiletRule d c).accepts_reservations = d.accepts_reservations := by
  unfold toiletRule
  split
  · split <;> rfl
  · rfl

@[simp] lemma toiletRule_pets (d : AmenityDict) (c : String) :
    (toiletRule d c).accepts_pets = d.accepts_pets := by
  unfold toiletRule
  split
  · split <;> rfl
  · rfl

@[simp] lemma toiletRule_fee (d : AmenityDict) (c : String) :
    (toiletRule d c).low_no_fee = d.low_no_fee := by
  unfold toiletRule
  split
  · split <;> rfl
  · rfl

@[simp] lemma toiletRule_rv (d : AmenityDict) (c : String) :
    (toiletRule d c).has_rv_hookup = d.has_rv_hookup := by
  unfold toiletRule
  split
  · split <;> rfl
  · rfl


lemma stepFields (d : AmenityDict) (c : String) (d' : AmenityDict)
    (h : processAmenityToken d c = some d') :
    d'.has_water_hookup =
      (if c ∈ ["NH", "E", "WE", "WES"] then some (strIn "W" c) else d.has_water_hookup) ∧
    d'.has_electric_hookup =
      (if c ∈ ["NH", "E", "WE", "WES"] then some (strIn "E" c) else d.has_electric_hookup) ∧
    d'.has_sewer_hookup =
      (if c ∈ ["NH", "E", "WE", "WES"] then some (strIn "S" c) else d.has_sewer_hookup) ∧
    d'.has_rv_hookup =
      (if c ∈ ["NH", "E", "WE", "WES"] then some (c != "NH") else d.has_rv_hookup) ∧
    d'.has_sanitary_dump =
      (if c ∈ ["DP", "NP"] then some (c == "DP") else d.has_sanitary_dump) ∧
    d'.max_rv_length =
      (if strIn "ft" c then pyInt (beforeFt c) else d.max_rv_length) ∧
    d'.has_toilets =
      (if c ∈ ["FT", "VT", "FTVT", "PT", "NT"] then
        (if c == "NT" then some false else some true) else d.has_toilets) ∧
    d'.toilet_type =
      (if c ∈ ["FT", "VT", "FTVT", "PT", "NT"] then
        (if c == "NT" then d.toilet_type else some (toiletMap c)) else d.toilet_type) ∧
    d'.has_drinking_water =
      (if c ∈ ["DW", "NW"] then some (c == "DW") else d.has_drinking_water) ∧
    d'.has_showers =
      (if c ∈ ["SH", "NS"] then some (c == "SH") else d.has_showers) ∧
    d'.accepts_reservations =
      (if c ∈ ["RS", "NR"] then some (c == "RS") else d.accepts_reservations) ∧
    d'.accepts_pets =
      (if c ∈ ["PA", "NP"] then some (c == "PA") else d.accepts_pets) ∧
    d'.low_no_fee =
      (if c == "L$" then some true else d.low_no_fee) := by
  unfold processAmenityToken at h
  cases hft : ftRule (dumpRule (hookupRule d c) c) c with
  | none =>
    rw [hft] at h
    cases h
  | some d3 =>
    rw [hft] at h
    injection h with h
    subst h
    unfold ftRule at hft
    by_cases hf : strIn "ft" c = true
    · rw [if_pos hf] at hft
      cases hp : pyInt (beforeFt c) with
      | none =>
        rw [hp] at hft
        cases hft
      | some n =>
        rw [hp] at hft
        injection hft with hft
        subst hft
        unfold lateRules
        simp [hf, hp]
    · rw [if_neg hf] at hft
      injection hft with hft
      subst hft
      unfold lateRules
      simp [hf]

/-- Writer tokens of the hookup rule. -/
def wHookup (u : String) : Bool := decide (u ∈ ["NH", "E", "WE", "WES"])

/-- Writer tokens of the sanitary-dump rule. -/
def wDump (u : String) : Bool := decide (u ∈ ["DP", "NP"])

/-- Writer tokens of the max-RV-length rule. -/
def wFt (u : String) : Bool := strIn "ft" u

/-- Writer tokens of the has_toilets field. -/
def wToilets (u : String) : Bool := decide (u ∈ ["FT", "VT", "FTVT", "PT", "NT"])

/-- Writer tokens of the toilet_type field (the token "NT" leaves it
unchanged). -/
def wTtype (u : String) : Bool := decide (u ∈ ["FT", "VT", "FTVT", "PT"])

/-- Writer tokens of the drinking-water rule. -/
def wDw (u : String) : Bool := decide (u ∈ ["DW", "NW"])

/-- Writer tokens of the shower rule. -/
def wShowers (u : String) : Bool := decide (u ∈ ["SH", "NS"])

/-- Writer tokens of the reservation rule. -/
def wResv (u : String) : Bool := decide (u ∈ ["RS", "NR"])

/-- Writer tokens of the pets rule. -/
def wPets (u : String) : Bool := decide (u ∈ ["PA", "NP"])

/-- Writer token of the low-fee rule. -/
def wFee (u : String) : Bool := u == "L$"

lemma set_water (d : AmenityDict) (c : String) (d2 : AmenityDict)
    (h : processAmenityToken d c = some d2) (hw : wHookup c = true) :
    d2.has_water_hookup = some (strIn "W" c) := by
  rw [(stepFields d c d2 h).1, if_pos (of_decide_eq_true hw)]

lemma keep_water (d : AmenityDict) (c : String) (d2 : AmenityDict)
    (h : processAmenityToken d c = some d2) (hw : wHookup c = false) :
    d2.has_water_hookup = d.has_water_hookup := by
  rw [(stepFields d c d2 h).1, if_neg (of_decide_eq_false hw)]

lemma set_electric (d : AmenityDict) (c : String) (d2 : AmenityDict)
    (h : processAmenityToken d c = some d2) (hw : wHookup c = true) :
    d2.has_electric_hookup = some (strIn "E" c) := by
  rw [(stepFields d c d2 h).2.1, if_pos (of_decide_eq_true hw)]

lemma keep_electric (d : AmenityDict) (c : String) (d2 : AmenityDict)
    (h : processAmenityToken d c = some d2) (hw : wHookup c = false) :
    d2.has_electric_hookup = d.has_electric_hookup := by
  rw [(stepFields d c d2 h).2.1, if_neg (of_decide_eq_false hw)]

lemma set_sewer (d : AmenityDict) (c : String) (d2 : AmenityDict)
    (h : processAmenityToken d c = some d2) (hw : wHookup c = true) :
    d2.has_sewer_hookup = some (strIn "S" c) := by
  rw [(stepFields d c d2 h).2.2.1, if_pos (of_decide_eq_true hw)]

lemma keep_sewer (d : AmenityDict) (c : String) (d2 : AmenityDict)
    (h : processAmenityToken d c = some d2) (hw : wHookup c = false) :
    d2.has_sewer_hookup = d.has_sewer_hookup := by
  rw [(stepFields d c d2 h).2.2.1, if_neg (of_decide_eq_false hw)]

lemma set_rv (d : AmenityDict) (c : String) (d2 : AmenityDict)
    (h : processAmenityToken d c = some d2) (hw : wHookup c = true) :
    d2.has_rv_hookup = some (c != "NH") := by
  rw [(stepFields d c d2 h).2.2.2.1, if_pos (of_decide_eq_true hw)]

lemma keep_rv (d : AmenityDict) (c : String) (d2 : AmenityDict)
    (h : processAmenityToken d c = some d2) (hw : wHookup c = false) :
    d2.has_rv_hookup = d.has_rv_hookup := by
  rw [(stepFields d c d2 h).2.2.2.1, if_neg (of_decide_eq_false hw)]

lemma set_dump (d : AmenityDict) (c : String) (d2 : AmenityDict)
    (h : processAmenityToken d c = some d2) (hw : wDump c = true) :
    d2.has_sanitary_dump = some (c == "DP") := by
  rw [(stepFields d c d2 h).2.2.2.2.1, if_pos (of_decide_eq_true hw)]

lemma keep_dump (d : AmenityDict) (c : String) (d2 : AmenityDict)
    (h : processAmenityToken d c = some d2) (hw : wDump c = false) :
    d2.has_sanitary_dump = d.has_sanitary_dump := by
  rw [(stepFields d c d2 h).2.2.2.2.1, if_neg (of_decide_eq_false hw)]

lemma set_max (d : AmenityDict) (c : String) (d2 : AmenityDict)
    (h : processAmenityToken d c = some d2) (hw : wFt c = true) :
    d2.max_rv_length = pyInt (beforeFt c) := by
  rw [(stepFields d c d2 h).2.2.2.2.2.1, if_pos (show strIn "ft" c = true from hw)]

lemma keep_max (d : AmenityDict) (c : String) (d2 : AmenityDict)
    (h : processAmenityToken d c = some d2) (hw : wFt c = false) :
    d2.max_rv_length = d.max_rv_length := by
  rw [(stepFields d c d2 h).2.2.2.2.2.1, if_neg (by simp [wFt] at hw; simp [hw])]

lemma set_toilets (d : AmenityDict) (c : String) (d2 : AmenityDict)
    (h : processAmenityToken d c = some d2) (hw : wToilets c = true) :
    d2.has_toilets = some (c != "NT") := by
  rw [(stepFields d c d2 h).2.2.2.2.2.2.1, if_pos (of_decide_eq_true hw)]
  cases hnt : c == "NT" with
  | false =>
    have hb : (c != "NT") = true := by simp [bne, hnt]
    rw [hb]
    rfl
  | true =>
    have hb : (c != "NT") = false := by simp [bne, hnt]
    rw [hb]
    rfl

lemma keep_toilets (d : AmenityDict) (c : String) (d2 : AmenityDict)
    (h : processAmenityToken d c = some d2) (hw : wToilets c = false) :
    d2.has_toilets = d.has_toilets := by
  rw [(stepFields d c d2 h).2.2.2.2.2.2.1, if_neg (of_decide_eq_false hw)]

lemma set_ttype (d : AmenityDict) (c : String) (d2 : AmenityDict)
    (h : processAmenityToken d c = some d2) (hw : wTtype c = true) :
    d2.toilet_type = some (toiletMap c) := by
  have hc := (stepFields d c d2 h).2.2.2.2.2.2.2.1
  have h4 := of_decide_eq_true hw
  rcases (by simpa using h4 : c = "FT" ∨ c = "VT" ∨ c = "FTVT" ∨ c = "PT") with
    rfl | rfl | rfl | rfl <;> rw [hc] <;> rfl

lemma keep_ttype (d : AmenityDict) (c : String) (d2 : AmenityDict)
    (h : processAmenityToken d c = some d2) (hw : wTtype c = false) :
    d2.toilet_type = d.toilet_type := by
  have hc := (stepFields d c d2 h).2.2.2.2.2.2.2.1
  have h4 := of_decide_eq_false hw
  by_cases h5 : c ∈ ["FT", "VT", "FTVT", "PT", "NT"]
  · have hnt : c = "NT" := by
      rcases (by simpa using h5 : c = "FT" ∨ c = "VT" ∨ c = "FTVT" ∨ c = "PT" ∨ c = "NT") with
        rfl | rfl | rfl | rfl | rfl
      · exact absurd (by decide) h4
      · exact absurd (by decide) h4
      · exact absurd (by decide) h4
      · exact absurd (by decide) h4
      · rfl
    subst hnt
    rw [hc]
    rfl
  · rw [hc, if_neg h5]

lemma set_dw (d : AmenityDict) (c : String) (d2 : AmenityDict)
    (h : processAmenityToken d c = some d2) (hw : wDw c = true) :
    d2.has_drinking_water = some (c == "DW") := by
  rw [(stepFields d c d2 h).2.2.2.2.2.2.2.2.1, if_pos (of_decide_eq_true hw)]

lemma keep_dw (d : AmenityDict) (c : String) (d2 : AmenityDict)
    (h : processAmenityToken d c = some d2) (hw : wDw c = false) :
    d2.has_drinking_water = d.has_drinking_water := by
  rw [(stepFields d c d2 h).2.2.2.2.2.2.2.2.1, if_neg (of_decide_eq_false hw)]

lemma set_showers (d : AmenityDict) (c : String) (d2 : AmenityDict)
    (h : processAmenityToken d c = some d2) (hw : wShowers c = true) :
    d2.has_showers = some (c == "SH") := by
  rw [(stepFields d c d2 h).2.2.2.2.2.2.2.2.2.1, if_pos (of_decide_eq_true hw)]

lemma keep_showers (d : AmenityDict) (c : String) (d2 : AmenityDict)
    (h : processAmenityToken d c = some d2) (hw : wShowers c = false) :
    d2.has_showers = d.has_showers := by
  rw [(stepFields d c d2 h).2.2.2.2.2.2.2.2.2.1, if_neg (of_decide_eq_false hw)]

lemma set_resv (d : AmenityDict) (c : String) (d2 : AmenityDict)
    (h : processAmenityToken d c = some d2) (hw : wResv c = true) :
    d2.accepts_reservations = some (c == "RS") := by
  rw [(stepFields d c d2 h).2.2.2.2.2.2.2.2.2.2.1, if_pos (of_decide_eq_true hw)]

lemma keep_resv (d : AmenityDict) (c : String) (d2 : AmenityDict)
    (h : processAmenityToken d c = some d2) (hw : wResv c = false) :
    d2.accepts_reservations = d.accepts_reservations := by
  rw [(stepFields d c d2 h).2.2.2.2.2.2.2.2.2.2.1, if_neg (of_decide_eq_false hw)]

lemma set_pets (d : AmenityDict) (c : String) (d2 : AmenityDict)
    (h : processAmenityToken d c = some d2) (hw : wPets c = true) :
    d2.accepts_pets = some (c == "PA") := by
  rw [(stepFields d c d2 h).2.2.2.2.2.2.2.2.2.2.2.1, if_pos (of_decide_eq_true hw)]

lemma keep_pets (d : AmenityDict) (c : String) (d2 : AmenityDict)
    (h : processAmenityToken d c = some d2) (hw : wPets c = false) :
    d2.accepts_pets = d.accepts_pets := by
  rw [(stepFields d c d2 h).2.2.2.2.2.2.2.2.2.2.2.1, if_neg (of_decide_eq_false hw)]

lemma set_fee (d : AmenityDict) (c : String) (d2 : AmenityDict)
    (h : processAmenityToken d c = some d2) (hw : wFee c = true) :
    d2.low_no_fee = some true := by
  rw [(stepFields d c d2 h).2.2.2.2.2.2.2.2.2.2.2.2,
    if_pos (show (c == "L$") = true from hw)]

lemma keep_fee (d : AmenityDict) (c : String) (d2 : AmenityDict)
    (h : processAmenityToken d c = some d2) (hw : wFee c = false) :
    d2.low_no_fee = d.low_no_fee := by
  rw [(stepFields d c d2 h).2.2.2.2.2.2.2.2.2.2.2.2, if_neg (by simp [wFee] at hw; simp [hw])]

lemma fold_keep {α : Type} (g : AmenityDict → α) (w : String → Bool)
    (hkeep : ∀ d c d2, processAmenityToken d c = some d2 → w c = false → g d2 = g d) :
    ∀ (l : List String) (d d' : AmenityDict),
      l.all (fun u => !(w u)) = true → foldAmenities d l = some d' → g d' = g d := by
  intro l
  induction l with
  | nil =>
    intro d d' _ h
    injection h with h
    subst h
    rfl
  | cons c cs ih =>
    intro d d' hall hf
    simp only [List.all_cons, Bool.and_eq_true] at hall
    unfold foldAmenities at hf
    cases hx : processAmenityToken d c with
    | none =>
      rw [hx] at hf
      cases hf
    | some d2 =>
      rw [hx] at hf
      rw [ih d2 d' hall.2 hf, hkeep d c d2 hx (by simpa using hall.1)]

lemma lastWriteWins {α : Type} (g : AmenityDict → α) (w : String → Bool) (val : String → α)
    (hset : ∀ d c d2, processAmenityToken d c = some d2 → w c = true → g d2 = val c)
    (hkeep : ∀ d c d2, processAmenityToken d c = some d2 → w c = false → g d2 = g d) :
    ∀ (pre post : List String) (t : String) (d d' : AmenityDict),
      w t = true → post.all (fun u => !(w u)) = true →
      foldAmenities d (pre ++ t :: post) = some d' → g d' = val t := by
  intro pre
  induction pre with
  | nil =>
    intro post t d d' hw hall hf
    rw [List.nil_append] at hf
    unfold foldAmenities at hf
    cases hx : processAmenityToken d t with
    | none =>
      rw [hx] at hf
      cases hf
    | some d2 =>
      rw [hx] at hf
      rw [fold_keep g w hkeep post d2 d' hall hf, hset d t d2 hx hw]
  | cons p ps ih =>
    intro post t d d' hw hall hf
    rw [List.cons_append] at hf
    unfold foldAmenities at hf
    cases hx : processAmenityToken d p with
    | none =>
      rw [hx] at hf
      cases hf
    | some d2 =>
      rw [hx] at hf
      exact ih post t d2 d' hw hall hf

lemma fold_max_source : ∀ (l : List String) (d0 d : AmenityDict) (n : Int),
    foldAmenities d0 l = some d → d.max_rv_length = some n →
    d0.max_rv_length = some n ∨
      ∃ t ∈ l, strIn "ft" t = true ∧ pyInt (beforeFt t) = some n := by
  intro l
  induction l with
  | nil =>
    intro d0 d n h hm
    injection h with h
    subst h
    exact Or.inl hm
  | cons c cs ih =>
    intro d0 d n h hm
    unfold foldAmenities at h
    cases hx : processAmenityToken d0 c with
    | none =>
      rw [hx] at h
      cases h
    | some d2 =>
      rw [hx] at h
      rcases ih d2 d n h hm with h2 | ⟨t, ht, hts, htn⟩
      · cases hf : wFt c with
        | true =>
          refine Or.inr ⟨c, List.mem_cons_self c cs, hf, ?_⟩
          rw [← set_max d0 c d2 hx hf, h2]
        | false =>
          rw [keep_max d0 c d2 hx hf] at h2
          exact Or.inl h2
      · exact Or.inr ⟨t, List.mem_cons_of_mem _ ht, hts, htn⟩

end Campsites

namespace Campsites

/-- C4: the phone normalizer maps absent input to absent output and, on a
present string, returns exactly the characters in the class A-Z, a-z, 0-9,
in their original order and case (a sublist of the input, every kept
character alphanumeric). -/
theorem c4_phone_contract :
    process_campsites_phone_number none = none ∧
    ∀ s : String, ∃ t : String,
      process_campsites_phone_number (some s) = some t ∧
      t.data = s.data.filter isAsciiAlnum ∧
      t.data.Sublist s.data ∧
      t.data.all isAsciiAlnum = true := by
  refine ⟨rfl, fun s => ⟨⟨s.data.filter isAsciiAlnum⟩, rfl, rfl, List.filter_sublist _, ?_⟩⟩
  rw [List.all_eq_true]
  intro c hc
  exact List.of_mem_filter hc

/-- C8: the phone normalizer is idempotent on every optional string. -/
theorem c8_phone_idempotent :
    ∀ s : Option String,
      process_campsites_phone_number (process_campsites_phone_number s) =
        process_campsites_phone_number s := by
  intro s
  cases s with
  | none => rfl
  | some s =>
    show some (⟨(s.data.filter isAsciiAlnum).filter isAsciiAlnum⟩ : String) = _
    rw [filter_idem]
    rfl

/-- C6: the country classifier returns "CAN" exactly on the thirteen
Canadian province abbreviations and "USA" on every other string; its
result is always one of the two, and in particular "ON" maps to "CAN"
while "CA" maps to "USA". -/
theorem c6_country_classifier :
    (∀ s : String,
      (process_campsites_country s = "CAN" ↔ s ∈ canadian_provinces) ∧
      (process_campsites_country s = "CAN" ∨ process_campsites_country s = "USA")) ∧
    process_campsites_country "ON" = "CAN" ∧
    process_campsites_country "CA" = "USA" := by
  refine ⟨fun s => ?_, by decide, by decide⟩
  unfold process_campsites_country
  by_cases h : s ∈ canadian_provinces <;> simp [h]

/-- C3: processing the token "NP" updates both the sanitary-dump field and
the pets field to false, whatever the current record is; in particular
decoding the input "NP" returns a record with both fields false. -/
theorem c3_np_sets_dump_and_pets :
    (∀ d : AmenityDict,
      processAmenityToken d "NP" =
        some { d with has_sanitary_dump := some false, accepts_pets := some false }) ∧
    (process_campsites_amenities (some "NP")).map
        (fun d => (d.has_sanitary_dump, d.accepts_pets)) =
      some (some false, some false) := by
  exact ⟨fun _ => rfl, by decide⟩

/-- C1, counterexample: on the input "ft" the amenity decoder reaches
int("") and raises a ValueError (modelled as none); it is not total. -/
theorem c1_amenities_raises_on_ft :
    process_campsites_amenities (some "ft") = none := by decide

/-- C1, amended: the phone, dates and country decoders are total by
construction; the amenity decoder returns a value exactly when every token
containing "ft" has a valid integer literal before its first "ft". -/
theorem c1_amenities_total_iff :
    ∀ s : String,
      (process_campsites_amenities (some s)).isSome =
        (pySplit ' ' (pyStrip s)).all goodToken := by
  intro s
  exact fold_isSome _ _

/-- C5: on a present input other than "all year", month_open is set from
the first token (after dash replacement and splitting on spaces) that is
exactly a month abbreviation; when no token matches exactly, both fields
stay absent and the close-month scan never runs. -/
theorem c5_open_scan_exact :
    ∀ s : String, s ≠ "all year" →
      ((pySplit ' ' (replaceDashes s)).find? isMonthKey = none →
        process_campsites_dates (some s) = ⟨none, none⟩) ∧
      (∀ u, (pySplit ' ' (replaceDashes s)).find? isMonthKey = some u →
        (process_campsites_dates (some s)).month_open = monthVal u) := by
  intro s hne
  have hd : process_campsites_dates (some s) =
      (match pySplit ' ' (replaceDashes s) with
       | [] => (⟨none, none⟩ : DatesDict)
       | h :: tl =>
         match openScan h tl with
         | (mo, []) => ⟨mo, none⟩
         | (mo, h2 :: tl2) => ⟨mo, closeScan h2 tl2⟩) := by
    simp [process_campsites_dates, hne]
  rw [hd]
  cases hsp : pySplit ' ' (replaceDashes s) with
  | nil =>
    refine ⟨fun _ => rfl, fun u hu => ?_⟩
    simp at hu
  | cons h tl =>
    have hred : (match h :: tl with
        | [] => (⟨none, none⟩ : DatesDict)
        | h :: tl =>
          match openScan h tl with
          | (mo, []) => ⟨mo, none⟩
          | (mo, h2 :: tl2) => ⟨mo, closeScan h2 tl2⟩) =
        (match openScan h tl with
          | (mo, []) => (⟨mo, none⟩ : DatesDict)
          | (mo, h2 :: tl2) => ⟨mo, closeScan h2 tl2⟩) := rfl
    rw [hred]
    constructor
    · intro hn
      rw [openScan_find_none tl h hn]
    · intro u hu
      have h1 := openScan_find_some tl h u hu
      rcases hsc : openScan h tl with ⟨mo, rest⟩
      rw [hsc] at h1
      cases rest <;> simpa using h1

/-- Witness for c5_open_scan_exact at the input "mid may". -/
theorem c5_open_scan_exact_witness :
    (process_campsites_dates (some "mid may")).month_open = some 5 := by
  have h := (c5_open_scan_exact "mid may" (by decide)).2 "may" (by decide)
  exact h.trans (by decide)

/-- C2, counterexample: on "may latesep oct" the first remaining token
"latesep" contains the abbreviation "sep" (month 9) as a substring, yet
month_close is 10: the scan does not stop at the first remaining token
containing a month abbreviation, it stops at the first exact match. -/
theorem c2_close_scan_not_substring_cex :
    process_campsites_dates (some "may latesep oct") = ⟨some 5, some 10⟩ ∧
    (process_campsites_dates (some "may latesep oct")).month_close ≠ some 9 ∧
    pySplit ' ' (replaceDashes "may latesep oct") = ["may", "latesep", "oct"] ∧
    strIn "sep" "latesep" = true ∧
    monthVal "sep" = some 9 := by decide

/-- C2, amended: the close-month scan discards tokens while the current
token is not exactly a month abbreviation and tokens remain; substring
containment is then applied only to the stopping token, which is the first
exact month match among the remaining tokens, or the last remaining token
when none matches exactly. -/
theorem c2_close_scan_stop_token :
    ∀ (t : String) (tl : List String),
      closeScan t tl =
        assignClose (((t :: tl).find? isMonthKey).getD ((t :: tl).getLastD "")) := by
  intro t tl
  induction tl generalizing t with
  | nil =>
    cases hk : isMonthKey t
    · rw [List.find?_cons_of_neg _ (by simp [hk])]
      simp [closeScan, hk]
    · rw [List.find?_cons_of_pos _ hk]
      simp [closeScan, hk]
  | cons h2 tl2 ih =>
    cases hk : isMonthKey t
    · rw [List.find?_cons_of_neg _ (by simp [hk])]
      rw [show closeScan t (h2 :: tl2) = closeScan h2 tl2 from by simp [closeScan, hk]]
      rw [ih h2]
      simp [List.getLastD_cons]
    · rw [List.find?_cons_of_pos _ hk]
      simp [closeScan, hk]

/-- C10: when a close token contains at least one month abbreviation as a
substring, the assignment loop returns the highest contained month (the
table is scanned in order jan..dec with overwriting); concretely the input
"may junjul" decodes with month_close 7. -/
theorem c10_close_assign_max :
    (∀ t : String,
      (∃ p ∈ datesMap, strIn p.1 t = true) →
      ∃ k, assignClose t = some k ∧
        (∀ p ∈ datesMap, strIn p.1 t = true → p.2 ≤ k) ∧
        (∃ p ∈ datesMap, strIn p.1 t = true ∧ p.2 = k)) ∧
    process_campsites_dates (some "may junjul") = ⟨some 5, some 7⟩ := by
  constructor
  · intro t h
    exact assignFold_max t datesMap none h (by decide)
  · decide

/-- Witness for c10_close_assign_max at the token "junjul". -/
theorem c10_close_assign_max_witness :
    ∃ k, assignClose "junjul" = some k ∧
      (∀ p ∈ datesMap, strIn p.1 "junjul" = true → p.2 ≤ k) ∧
      (∃ p ∈ datesMap, strIn p.1 "junjul" = true ∧ p.2 = k) :=
  c10_close_assign_max.1 "junjul" (by decide)

/-- C9: tokens are processed left to right with overwrite semantics; for
each output field, when a writer token of that field is followed only by
non-writer tokens, the final field value is the one that token assigns; in
particular decoding "DW NW" leaves drinking water false while "NW DW"
leaves it true. -/
theorem c9_last_writer_wins :
    (∀ (pre post : List String) (t : String) (d' : AmenityDict),
      wHookup t = true → post.all (fun u => !(wHookup u)) = true →
      foldAmenities {} (pre ++ t :: post) = some d' →
      d'.has_water_hookup = some (strIn "W" t) ∧
      d'.has_electric_hookup = some (strIn "E" t) ∧
      d'.has_sewer_hookup = some (strIn "S" t) ∧
      d'.has_rv_hookup = some (t != "NH")) ∧
    (∀ (pre post : List String) (t : String) (d' : AmenityDict),
      wDump t = true → post.all (fun u => !(wDump u)) = true →
      foldAmenities {} (pre ++ t :: post) = some d' →
      d'.has_sanitary_dump = some (t == "DP")) ∧
    (∀ (pre post : List String) (t : String) (d' : AmenityDict),
      wFt t = true → post.all (fun u => !(wFt u)) = true →
      foldAmenities {} (pre ++ t :: post) = some d' →
      d'.max_rv_length = pyInt (beforeFt t)) ∧
    (∀ (pre post : List String) (t : String) (d' : AmenityDict),
      wToilets t = true → post.all (fun u => !(wToilets u)) = true →
      foldAmenities {} (pre ++ t :: post) = some d' →
      d'.has_toilets = some (t != "NT")) ∧
    (∀ (pre post : List String) (t : String) (d' : AmenityDict),
      wTtype t = true → post.all (fun u => !(wTtype u)) = true →
      foldAmenities {} (pre ++ t :: post) = some d' →
      d'.toilet_type = some (toiletMap t)) ∧
    (∀ (pre post : List String) (t : String) (d' : AmenityDict),
      wDw t = true → post.all (fun u => !(wDw u)) = true →
      foldAmenities {} (pre ++ t :: post) = some d' →
      d'.has_drinking_water = some (t == "DW")) ∧
    (∀ (pre post : List String) (t : String) (d' : AmenityDict),
      wShowers t = true → post.all (fun u => !(wShowers u)) = true →
      foldAmenities {} (pre ++ t :: post) = some d' →
      d'.has_showers = some (t == "SH")) ∧
    (∀ (pre post : List String) (t : String) (d' : AmenityDict),
      wResv t = true → post.all (fun u => !(wResv u)) = true →
      foldAmenities {} (pre ++ t :: post) = some d' →
      d'.accepts_reservations = some (t == "RS")) ∧
    (∀ (pre post : List String) (t : String) (d' : AmenityDict),
      wPets t = true → post.all (fun u => !(wPets u)) = true →
      foldAmenities {} (pre ++ t :: post) = some d' →
      d'.accepts_pets = some (t == "PA")) ∧
    (∀ (pre post : List String) (t : String) (d' : AmenityDict),
      wFee t = true → post.all (fun u => !(wFee u)) = true →
      foldAmenities {} (pre ++ t :: post) = some d' →
      d'.low_no_fee = some true) ∧
    (process_campsites_amenities (some "DW NW")).map AmenityDict.has_drinking_water =
      some (some false) ∧
    (process_campsites_amenities (some "NW DW")).map AmenityDict.has_drinking_water =
      some (some true) := by
  refine ⟨fun pre post t d' hw hall hf => ⟨?_, ?_, ?_, ?_⟩,
    fun pre post t d' hw hall hf => ?_,
    fun pre post t d' hw hall hf => ?_,
    fun pre post t d' hw hall hf => ?_,
    fun pre post t d' hw hall hf => ?_,
    fun pre post t d' hw hall hf => ?_,
    fun pre post t d' hw hall hf => ?_,
    fun pre post t d' hw hall hf => ?_,
    fun pre post t d' hw hall hf => ?_,
    fun pre post t d' hw hall hf => ?_,
    by decide, by decide⟩
  · exact lastWriteWins AmenityDict.has_water_hookup wHookup
      (fun u => some (strIn "W" u)) set_water keep_water pre post t {} d' hw hall hf
  · exact lastWriteWins AmenityDict.has_electric_hookup wHookup
      (fun u => some (strIn "E" u)) set_electric keep_electric pre post t {} d' hw hall hf
  · exact lastWriteWins AmenityDict.has_sewer_hookup wHookup
      (fun u => some (strIn "S" u)) set_sewer keep_sewer pre post t {} d' hw hall hf
  · exact lastWriteWins AmenityDict.has_rv_hookup wHookup
      (fun u => some (u != "NH")) set_rv keep_rv pre post t {} d' hw hall hf
  · exact lastWriteWins AmenityDict.has_sanitary_dump wDump
      (fun u => some (u == "DP")) set_dump keep_dump pre post t {} d' hw hall hf
  · exact lastWriteWins AmenityDict.max_rv_length wFt
      (fun u => pyInt (beforeFt u)) set_max keep_max pre post t {} d' hw hall hf
  · exact lastWriteWins AmenityDict.has_toilets wToilets
      (fun u => some (u != "NT")) set_toilets keep_toilets pre post t {} d' hw hall hf
  · exact lastWriteWins AmenityDict.toilet_type wTtype
      (fun u => some (toiletMap u)) set_ttype keep_ttype pre post t {} d' hw hall hf
  · exact lastWriteWins AmenityDict.has_drinking_water wDw
      (fun u => some (u == "DW")) set_dw keep_dw pre post t {} d' hw hall hf
  · exact lastWriteWins AmenityDict.has_showers wShowers
      (fun u => some (u == "SH")) set_showers keep_showers pre post t {} d' hw hall hf
  · exact lastWriteWins AmenityDict.accepts_reservations wResv
      (fun u => some (u == "RS")) set_resv keep_resv pre post t {} d' hw hall hf
  · exact lastWriteWins AmenityDict.accepts_pets wPets
      (fun u => some (u == "PA")) set_pets keep_pets pre post t {} d' hw hall hf
  · exact lastWriteWins AmenityDict.low_no_fee wFee
      (fun _ => some true) set_fee keep_fee pre post t {} d' hw hall hf

/-- Witness for c9_last_writer_wins on the token list "NW" then "DW". -/
theorem c9_last_writer_wins_witness :
    ∃ d' : AmenityDict, foldAmenities {} (["NW"] ++ "DW" :: []) = some d' ∧
      d'.has_drinking_water = some true := by
  refine ⟨{ has_drinking_water := some true }, by decide, ?_⟩
  have h := c9_last_writer_wins.2.2.2.2.2.1 ["NW"] [] "DW"
    { has_drinking_water := some true } (by decide) (by decide) (by decide)
  exact h.trans (by decide)

/-- C7, counterexample: the token "-30ft" parses to a negative
max_rv_length, so the field is not always a non-negative integer. -/
theorem c7_negative_rv_length_cex :
    (process_campsites_amenities (some "-30ft")).map AmenityDict.max_rv_length =
      some (some (-30 : Int)) ∧ (-30 : Int) < 0 := by decide

/-- C7, amended: whenever the amenity decoder returns a record whose
max_rv_length is present, the value is the integer parsed (with Python int
semantics, hence possibly negative) from the prefix before "ft" of some
token of the input that contains "ft". -/
theorem c7_rv_length_from_ft_token :
    ∀ (s : String) (d : AmenityDict) (n : Int),
      process_campsites_amenities (some s) = some d →
      d.max_rv_length = some n →
      ∃ t ∈ pySplit ' ' (pyStrip s), strIn "ft" t = true ∧ pyInt (beforeFt t) = some n := by
  intro s d n h hm
  have h' : foldAmenities {} (pySplit ' ' (pyStrip s)) = some d := h
  rcases fold_max_source (pySplit ' ' (pyStrip s)) {} d n h' hm with h0 | h1
  · simp at h0
  · exact h1

/-- Witness for c7_rv_length_from_ft_token at the input "-30ft". -/
theorem c7_rv_length_from_ft_token_witness :
    ∃ t ∈ pySplit ' ' (pyStrip "-30ft"),
      strIn "ft" t = true ∧ pyInt (beforeFt t) = some (-30 : Int) :=
  c7_rv_length_from_ft_token "-30ft" { max_rv_length := some (-30 : Int) } (-30)
    (by decide) (by decide)

end Campsites
